import Mathlib

/-!
Verification of the TestMesh Python plugin SDK
(`src/plugins/sdk/python/testmesh_plugin.py`).

The SDK runs an HTTP server with four routes (GET /health, GET /info,
POST /execute, POST /shutdown).  We shallowly embed the data model and the
request-handling code of `PluginHandler` as pure Lean functions:

* JSON values are the inductive `JVal`; Python dicts are association lists
  `List (String × _)` with Python-dict insert/lookup semantics
  (`dictInsert`, `dictGet`).
* Wall-clock samples (`time.time()`) are passed in as explicit numeric
  arguments; `/health` times are in seconds, `/execute` duration samples in
  milliseconds.
* A handler invocation is a pure function returning either a normal result
  together with the log calls it made on its `Logger` (in emission order),
  or a raised exception (optional `code` attribute plus `str(e)` message)
  together with the log calls made before the raise.
* `do_POST` on `/execute` parses the body with `json.loads`, which is NOT
  guarded by a try/except in the source; a malformed body therefore lets
  the decode exception escape `do_POST`.  We model the body as an already
  classified `ParsedBody` (either `malformed` or the extracted fields) and
  the outcome of `do_POST` as `PostOutcome`, whose `uncaught` constructor
  records an exception escaping the handler method.
-/

namespace TestmeshPlugin

/-- JSON values, the shape of every request/response body. -/
inductive JVal where
  | jnull : JVal
  | jbool : Bool → JVal
  | jint : Int → JVal
  | jstr : String → JVal
  | jarr : List JVal → JVal
  | jobj : List (String × JVal) → JVal

/-- A JSON object body: a Python dict with string keys. -/
abbrev JObj := List (String × JVal)

/-- Python `d[k] = v`: replace the value at an existing key in place
(keeping its position), otherwise append the new entry. -/
def dictInsert {α : Type} : List (String × α) → String → α → List (String × α)
  | [], k, v => [(k, v)]
  | (k', v') :: rest, k, v =>
      if k' = k then (k, v) :: rest else (k', v') :: dictInsert rest k v

/-- Python `d.get(k)`: the value at the first entry with key `k`, if any. -/
def dictGet {α : Type} : List (String × α) → String → Option α
  | [], _ => none
  | (k', v') :: rest, k => if k' = k then some v' else dictGet rest k

/-- Field access on a JSON value: `dictGet` on objects, `none` otherwise. -/
def JVal.getField : JVal → String → Option JVal
  | .jobj fs, k => dictGet fs k
  | _, _ => none

/-- Two-level field access, e.g. `body["error"]["code"]`. -/
def JVal.getField2 (v : JVal) (k1 k2 : String) : Option JVal :=
  (v.getField k1).bind (fun e => JVal.getField e k2)

/-- The plugin manifest dict: `id` and `name` are accessed with `[...]`
(required), `version` and `description` with `.get` and a default. -/
structure Manifest where
  id : String
  name : String
  version : Option String
  description : Option String

/-- `manifest.get("version", "1.0.0")`. -/
def Manifest.versionOr (m : Manifest) : String := m.version.getD "1.0.0"

/-- `manifest.get("description", "")`. -/
def Manifest.descriptionOr (m : Manifest) : String := m.description.getD ""

/-- `LogEntry`: level, message and the creation instant
(`datetime.now()` at append time, modelled as a numeric tick). -/
structure LogEntry where
  level : String
  message : String
  timestamp : Nat

/-- `LogEntry.to_dict`: the serialized form put into the response `logs`
array (the timestamp is rendered as its ISO string; we model the rendering
as `toString`). -/
def LogEntry.to_dict (e : LogEntry) : JVal :=
  .jobj [("level", .jstr e.level), ("message", .jstr e.message),
         ("timestamp", .jstr (toString e.timestamp))]

/-- One call on the per-invocation `Logger` (`debug`/`info`/`warn`/`error`),
carrying the message and the clock tick at which it was made. -/
inductive LogCall where
  | debug : String → Nat → LogCall
  | info : String → Nat → LogCall
  | warn : String → Nat → LogCall
  | err : String → Nat → LogCall

/-- The `LogEntry` a logger call appends: each of the four methods appends
`LogEntry(<level>, msg)` stamped with the current instant. -/
def LogCall.entry : LogCall → LogEntry
  | .debug m t => ⟨"debug", m, t⟩
  | .info m t => ⟨"info", m, t⟩
  | .warn m t => ⟨"warn", m, t⟩
  | .err m t => ⟨"error", m, t⟩

/-- `Logger`: `self.logs.append(...)` for each call in order, starting
from the current `logs` list. -/
def loggerRun (logs : List LogEntry) : List LogCall → List LogEntry
  | [] => logs
  | c :: cs => loggerRun (logs ++ [c.entry]) cs

/-- `PluginContext` after construction in `do_POST` (all defaults filled). -/
structure PluginContext where
  execution_id : String
  flow_id : String
  step_id : String
  «variables» : List (String × String)
  step_outputs : List (String × JVal)

/-- The raw `context` sub-object of an `/execute` request body:
every field may be absent (`ctx_data.get(..., default)`). -/
structure CtxData where
  execution_id : Option String
  flow_id : Option String
  step_id : Option String
  «variables» : Option (List (String × String))
  step_outputs : Option (List (String × JVal))

/-- The empty `context` mapping (`request.get("context", {})` default). -/
def CtxData.empty : CtxData := ⟨none, none, none, none, none⟩

/-- The `PluginContext(...)` construction in `do_POST`: each absent field
defaults to its empty form. -/
def mkContext (c : CtxData) : PluginContext :=
  ⟨c.execution_id.getD "", c.flow_id.getD "", c.step_id.getD "",
   c.«variables».getD [], c.step_outputs.getD []⟩

/-- What a handler invocation does: return normally (a dict or `None`)
or raise an exception (optional `code` attribute, `str(e)` message).
Either way it records the logger calls it made, in emission order. -/
inductive HandlerResult where
  | ret : Option JObj → List LogCall → HandlerResult
  | exn : Option String → String → List LogCall → HandlerResult

/-- The logger calls a handler invocation made, in emission order
(on `exn`, those made before the raise). -/
def HandlerResult.logCalls : HandlerResult → List LogCall
  | .ret _ cs => cs
  | .exn _ _ cs => cs

instance : Inhabited HandlerResult := ⟨.ret none []⟩

/-- An action handler: `(config, context, logger) -> result`. -/
abbrev Handler := JObj → PluginContext → HandlerResult

/-- The server-side state visible to `PluginHandler`: the plugin's
manifest, its handler registry, and `start_time` (seconds). -/
structure ServerState where
  manifest : Manifest
  handlers : List (String × Handler)
  start_time : Nat

/-- `plugin.action(action_id)` registration: `self.handlers[action_id] = func`
for each decorated function, in order. -/
def buildRegistry (regs : List (String × Handler)) : List (String × Handler) :=
  regs.foldl (fun d p => dictInsert d p.1 p.2) []

/-- An HTTP response as written by `send_json`: status code and JSON body. -/
structure HttpResp where
  status : Nat
  body : JVal

/-- The `{"error": "Not found"}` body of the unknown-route branches. -/
def notFoundBody : JVal := .jobj [("error", .jstr "Not found")]

/-- `do_GET`: `/health`, `/info`, else 404.  `now` is the `time.time()`
sample (seconds); `uptime_seconds = int(time.time() - plugin.start_time)`. -/
def do_GET (st : ServerState) (now : Nat) (path : String) : HttpResp :=
  if path = "/health" then
    ⟨200, .jobj [("status", .jstr "healthy"),
                 ("version", .jstr st.manifest.versionOr),
                 ("uptime_seconds", .jint ((now : Int) - (st.start_time : Int)))]⟩
  else if path = "/info" then
    ⟨200, .jobj [("id", .jstr st.manifest.id),
                 ("name", .jstr st.manifest.name),
                 ("version", .jstr st.manifest.versionOr),
                 ("description", .jstr st.manifest.descriptionOr),
                 ("actions", .jarr (st.handlers.map (fun p =>
                    .jobj [("id", .jstr p.1), ("name", .jstr p.1),
                           ("description", .jstr ("Action: " ++ p.1))])))]⟩
  else
    ⟨404, notFoundBody⟩

/-- The fields `do_POST` extracts from a well-formed `/execute` JSON body
with `request.get`: each may be absent. -/
structure ExecRequest where
  action : Option String
  config : Option JObj
  context : Option CtxData

/-- The `/execute` request body as seen after `json.loads`: either the
parse raised (`malformed`: body is not valid JSON) or it produced a dict. -/
inductive ParsedBody where
  | malformed : ParsedBody
  | parsed : ExecRequest → ParsedBody

/-- Outcome of one `do_POST` call: either `send_json` wrote a response, or
an exception escaped the method (no response written; the base HTTP
library aborts handling of this request). -/
inductive PostOutcome where
  | responded : Nat → JVal → PostOutcome
  | uncaught : String → PostOutcome

/-- `plugin.handlers.get(action)` where `action = request.get("action")`:
a missing field gives Python `None`, which matches no string key. -/
def lookupHandler (st : ServerState) : Option String → Option Handler
  | none => none
  | some a => dictGet st.handlers a

/-- `f"Unknown action: {action}"`: Python renders the `None` value of a
missing field as the text `None`. -/
def unknownActionText : Option String → String
  | none => "Unknown action: None"
  | some a => "Unknown action: " ++ a

/-- `result or {}`: Python truthiness maps both `None` and the (falsy)
empty dict to `{}`; on a dict result the value is unchanged. -/
def orEmptyDict : Option JObj → JObj
  | none => []
  | some d => d

/-- The unknown-action response body of `do_POST` (no logs, no metrics:
the handler never ran). -/
def unknownActionBody (a : Option String) : JVal :=
  .jobj [("success", .jbool false),
         ("error", .jobj [("code", .jstr "UNKNOWN_ACTION"),
                          ("message", .jstr (unknownActionText a))])]

/-- The success response body of `do_POST` for a handler that returned
normally. -/
def successBody (result : Option JObj) (calls : List LogCall) (t0 t1 : Nat) : JVal :=
  .jobj [("success", .jbool true),
         ("output", .jobj (orEmptyDict result)),
         ("logs", .jarr ((loggerRun [] calls).map LogEntry.to_dict)),
         ("metrics", .jobj [("duration_ms", .jint ((t1 : Int) - (t0 : Int)))])]

/-- The failure response body of `do_POST` for a handler that raised:
`getattr(e, "code", "EXECUTION_ERROR")` plus `str(e)`, with the logs
gathered before the raise and the duration metric. -/
def failureBody (code : Option String) (msg : String) (calls : List LogCall)
    (t0 t1 : Nat) : JVal :=
  .jobj [("success", .jbool false),
         ("error", .jobj [("code", .jstr (code.getD "EXECUTION_ERROR")),
                          ("message", .jstr msg)]),
         ("logs", .jarr ((loggerRun [] calls).map LogEntry.to_dict)),
         ("metrics", .jobj [("duration_ms", .jint ((t1 : Int) - (t0 : Int)))])]

/-- `do_POST`: `/execute` (parse body, look up the action, run the handler
inside try/except), `/shutdown`, else 404.  `t0` and `t1` are the two
`time.time()` samples around the handler call, in milliseconds, so
`duration_ms = int((t1 - t0))`.  The `json.loads` call is not guarded in
the source, so a malformed body makes the decode exception escape. -/
def do_POST (st : ServerState) (t0 t1 : Nat) (path : String)
    (body : ParsedBody) : PostOutcome :=
  if path = "/execute" then
    match body with
    | .malformed => .uncaught "json.decoder.JSONDecodeError"
    | .parsed req =>
      match lookupHandler st req.action with
      | none => .responded 200 (unknownActionBody req.action)
      | some handler =>
        match handler (req.config.getD []) (mkContext (req.context.getD CtxData.empty)) with
        | .ret result calls => .responded 200 (successBody result calls t0 t1)
        | .exn code msg calls => .responded 200 (failureBody code msg calls t0 t1)
  else if path = "/shutdown" then
    .responded 200 (.jobj [("status", .jstr "shutting_down")])
  else
    .responded 404 notFoundBody

/-- The HTTP methods the handler class implements (`do_GET`, `do_POST`). -/
inductive Method where
  | GET : Method
  | POST : Method

/-- Whether (method, path) is one of the four routes of the protocol. -/
def isRoute : Method → String → Bool
  | .GET, p => p = "/health" || p = "/info"
  | .POST, p => p = "/execute" || p = "/shutdown"

/-- Route a request to `do_GET` or `do_POST`, viewing a written GET
response as a `responded` outcome. -/
def dispatch (st : ServerState) (now t0 t1 : Nat) (m : Method) (path : String)
    (body : ParsedBody) : PostOutcome :=
  match m with
  | .GET => .responded (do_GET st now path).status (do_GET st now path).body
  | .POST => do_POST st t0 t1 path body

/-! ### Sample concrete plugin used in witnesses -/

/-- A concrete manifest for witness instances. -/
def sampleManifest : Manifest := ⟨"demo", "Demo plugin", none, none⟩

/-- A handler that logs one line and returns a non-empty mapping. -/
def pingHandler : Handler :=
  fun _ _ => .ret (some [("pong", .jbool true)]) [.info "starting" 3]

/-- A handler that logs one line and then raises with a declared code. -/
def failHandler : Handler :=
  fun _ _ => .exn (some "BAD_INPUT") "missing field" [.warn "about to fail" 5]

/-- A concrete server state with two registered actions. -/
def sampleState : ServerState :=
  ⟨sampleManifest, [("ping", pingHandler), ("fail", failHandler)], 10⟩

/-! ### Helper lemmas -/

/-- Running the logger appends the entries of the calls, in call order. -/
theorem loggerRun_eq (cs : List LogCall) :
    ∀ logs : List LogEntry, loggerRun logs cs = logs ++ cs.map LogCall.entry := by
  induction cs with
  | nil => intro logs; simp [loggerRun]
  | cons c cs ih => intro logs; simp [loggerRun, ih]

/-- Keys after a Python-dict insert: unchanged if the key was present,
otherwise the key is appended. -/
theorem keys_dictInsert {α : Type} (d : List (String × α)) (k : String) (v : α) :
    (dictInsert d k v).map Prod.fst =
      if k ∈ d.map Prod.fst then d.map Prod.fst else d.map Prod.fst ++ [k] := by
  induction d with
  | nil => simp [dictInsert]
  | cons p rest ih =>
    obtain ⟨k', v'⟩ := p
    by_cases hk : k' = k
    · subst hk
      simp [dictInsert]
    · have hk' : ¬ k = k' := fun h => hk h.symm
      by_cases hm : k ∈ rest.map Prod.fst <;>
        simp [dictInsert, hk, hk', hm, ih]

/-- A Python-dict insert preserves key uniqueness. -/
theorem nodup_keys_dictInsert {α : Type} {d : List (String × α)} {k : String} {v : α}
    (h : (d.map Prod.fst).Nodup) : ((dictInsert d k v).map Prod.fst).Nodup := by
  rw [keys_dictInsert]
  by_cases hm : k ∈ d.map Prod.fst
  · simpa [hm] using h
  · simp [hm, List.nodup_append, h]

/-- Membership in the keys after a Python-dict insert. -/
theorem mem_keys_dictInsert {α : Type} {d : List (String × α)} {k a : String} {v : α} :
    a ∈ (dictInsert d k v).map Prod.fst ↔ a ∈ d.map Prod.fst ∨ a = k := by
  rw [keys_dictInsert]
  by_cases hm : k ∈ d.map Prod.fst
  · simp only [hm, if_true]
    constructor
    · exact Or.inl
    · rintro (h | rfl)
      · exact h
      · exact hm
  · simp [hm]

/-- Folding Python-dict inserts over a registration list keeps the key list
duplicate-free and its membership is initial-keys-or-registered-ids. -/
theorem keys_foldl_insert (regs : List (String × Handler)) :
    ∀ d : List (String × Handler), (d.map Prod.fst).Nodup →
      (((regs.foldl (fun d p => dictInsert d p.1 p.2) d).map Prod.fst).Nodup
        ∧ ∀ a : String,
            a ∈ (regs.foldl (fun d p => dictInsert d p.1 p.2) d).map Prod.fst ↔
              a ∈ d.map Prod.fst ∨ a ∈ regs.map Prod.fst) := by
  induction regs with
  | nil => intro d hd; simp [hd]
  | cons p rest ih =>
    intro d hd
    simp only [List.foldl_cons]
    have h1 := ih (dictInsert d p.1 p.2) (nodup_keys_dictInsert hd)
    refine ⟨h1.1, fun a => ?_⟩
    rw [h1.2 a, mem_keys_dictInsert]
    simp only [List.map_cons, List.mem_cons]
    tauto

/-- The registry built from any registration sequence has duplicate-free keys. -/
theorem buildRegistry_keys_nodup (regs : List (String × Handler)) :
    ((buildRegistry regs).map Prod.fst).Nodup :=
  (keys_foldl_insert regs [] (by simp)).1

/-- The registry's keys are exactly the registered action ids. -/
theorem mem_buildRegistry_keys {regs : List (String × Handler)} {a : String} :
    a ∈ (buildRegistry regs).map Prod.fst ↔ a ∈ regs.map Prod.fst := by
  have := (keys_foldl_insert regs [] (by simp)).2 a
  simpa [buildRegistry] using this

/-! ### Claim theorems -/

/-- C1: for every registered action id whose handler returns a mapping `M`
without signaling failure, POST /execute on that action yields a response
with `success: true` and `output` equal to `M` (or the empty mapping when
the handler returns `None`). -/
theorem execute_success_output (st : ServerState) (req : ExecRequest) (t0 t1 : Nat)
    (hd : Handler) (r : Option JObj) (calls : List LogCall)
    (hfind : lookupHandler st req.action = some hd)
    (hrun : hd (req.config.getD []) (mkContext (req.context.getD CtxData.empty))
              = .ret r calls) :
    ∃ body, do_POST st t0 t1 "/execute" (.parsed req) = .responded 200 body
      ∧ body.getField "success" = some (.jbool true)
      ∧ body.getField "output" = some (.jobj (orEmptyDict r)) := by
  refine ⟨successBody r calls t0 t1, ?_, ?_, ?_⟩
  · simp [do_POST, hfind, hrun]
  · simp [successBody, JVal.getField, dictGet]
  · simp [successBody, JVal.getField, dictGet]

/-- C1 witness: the sample `ping` action returns its mapping as `output`. -/
theorem execute_success_output_witness :
    lookupHandler sampleState (ExecRequest.mk (some "ping") none none).action = some pingHandler
    ∧ pingHandler ((ExecRequest.mk (some "ping") none none).config.getD [])
        (mkContext ((ExecRequest.mk (some "ping") none none).context.getD CtxData.empty))
        = .ret (some [("pong", .jbool true)]) [.info "starting" 3]
    ∧ ∃ body, do_POST sampleState 100 160 "/execute"
          (.parsed (ExecRequest.mk (some "ping") none none)) = .responded 200 body
        ∧ body.getField "success" = some (.jbool true)
        ∧ body.getField "output" = some (.jobj (orEmptyDict (some [("pong", .jbool true)]))) :=
  ⟨rfl, rfl,
   execute_success_output sampleState (ExecRequest.mk (some "ping") none none) 100 160
     pingHandler (some [("pong", .jbool true)]) [.info "starting" 3] rfl rfl⟩

/-- C2: the source parses the `/execute` body with an unguarded
`json.loads`, so a malformed (non-JSON) body makes the decode exception
escape `do_POST` and no structured response is written — the parse failure
is not handled as a protocol-level error. -/
theorem execute_malformed_body_uncaught (st : ServerState) (t0 t1 : Nat) :
    do_POST st t0 t1 "/execute" ParsedBody.malformed
      = .uncaught "json.decoder.JSONDecodeError"
    ∧ ∀ (status : Nat) (body : JVal),
        do_POST st t0 t1 "/execute" ParsedBody.malformed ≠ .responded status body := by
  constructor
  · simp [do_POST]
  · intro status body h
    simp [do_POST] at h

/-- C7: every dispatched `/execute` request — found, unknown action, or
handler failure — is answered with HTTP status 200. -/
theorem execute_always_status_200 (st : ServerState) (req : ExecRequest) (t0 t1 : Nat) :
    ∃ body, do_POST st t0 t1 "/execute" (.parsed req) = .responded 200 body := by
  rcases hfind : lookupHandler st req.action with _ | hd
  · exact ⟨unknownActionBody req.action, by simp [do_POST, hfind]⟩
  · rcases hr : hd (req.config.getD []) (mkContext (req.context.getD CtxData.empty))
      with ⟨r, cs⟩ | ⟨c, m, cs⟩
    · exact ⟨successBody r cs t0 t1, by simp [do_POST, hfind, hr]⟩
    · exact ⟨failureBody c m cs t0 t1, by simp [do_POST, hfind, hr]⟩

/-- C10: a valid JSON body that omits `action` entirely falls through the
registry lookup as the absent value: no crash, `success: false`,
`error.code = "UNKNOWN_ACTION"`, `error.message = "Unknown action: None"`. -/
theorem execute_missing_action_field (st : ServerState) (req : ExecRequest) (t0 t1 : Nat)
    (ha : req.action = none) :
    ∃ body, do_POST st t0 t1 "/execute" (.parsed req) = .responded 200 body
      ∧ body.getField "success" = some (.jbool false)
      ∧ body.getField2 "error" "code" = some (.jstr "UNKNOWN_ACTION")
      ∧ body.getField2 "error" "message" = some (.jstr "Unknown action: None")
      ∧ ∀ e, do_POST st t0 t1 "/execute" (.parsed req) ≠ .uncaught e := by
  have hfind : lookupHandler st req.action = none := by rw [ha]; rfl
  refine ⟨unknownActionBody req.action, ?_, ?_, ?_, ?_, ?_⟩
  · simp [do_POST, hfind]
  · simp [unknownActionBody, JVal.getField, dictGet]
  · simp [unknownActionBody, JVal.getField2, JVal.getField, dictGet]
  · simp [unknownActionBody, ha, JVal.getField2, JVal.getField, dictGet, unknownActionText]
  · intro e h
    simp [do_POST, hfind] at h

/-- C10 witness: a concrete request with no `action` field. -/
theorem execute_missing_action_field_witness :
    (ExecRequest.mk none none none).action = none
    ∧ (∃ body, do_POST sampleState 7 9 "/execute"
          (.parsed (ExecRequest.mk none none none)) = .responded 200 body
        ∧ body.getField "success" = some (.jbool false)
        ∧ body.getField2 "error" "code" = some (.jstr "UNKNOWN_ACTION")
        ∧ body.getField2 "error" "message" = some (.jstr "Unknown action: None")
        ∧ ∀ e, do_POST sampleState 7 9 "/execute"
            (.parsed (ExecRequest.mk none none none)) ≠ .uncaught e) :=
  ⟨rfl, execute_missing_action_field sampleState (ExecRequest.mk none none none) 7 9 rfl⟩

/-- C3: an `/execute` request naming an action id not in the registry gets
`success: false`, `error.code = "UNKNOWN_ACTION"`,
`error.message = "Unknown action: <action>"`, and the response body has no
`logs` and no `metrics` fields. -/
theorem execute_unknown_action (st : ServerState) (req : ExecRequest) (t0 t1 : Nat)
    (a : String)
    (ha : req.action = some a)
    (hmiss : dictGet st.handlers a = none) :
    ∃ body, do_POST st t0 t1 "/execute" (.parsed req) = .responded 200 body
      ∧ body.getField "success" = some (.jbool false)
      ∧ body.getField2 "error" "code" = some (.jstr "UNKNOWN_ACTION")
      ∧ body.getField2 "error" "message" = some (.jstr ("Unknown action: " ++ a))
      ∧ body.getField "logs" = none
      ∧ body.getField "metrics" = none := by
  have hfind : lookupHandler st req.action = none := by
    rw [ha]; exact hmiss
  refine ⟨unknownActionBody req.action, ?_, ?_, ?_, ?_, ?_, ?_⟩
  · simp [do_POST, hfind]
  · simp [unknownActionBody, JVal.getField, dictGet]
  · simp [unknownActionBody, JVal.getField2, JVal.getField, dictGet]
  · simp [unknownActionBody, ha, JVal.getField2, JVal.getField, dictGet, unknownActionText]
  · simp [unknownActionBody, JVal.getField, dictGet]
  · simp [unknownActionBody, JVal.getField, dictGet]

/-- C3 witness: asking the sample plugin for an unregistered action id. -/
theorem execute_unknown_action_witness :
    (ExecRequest.mk (some "nope") none none).action = some "nope"
    ∧ dictGet sampleState.handlers "nope" = none
    ∧ (∃ body, do_POST sampleState 4 6 "/execute"
          (.parsed (ExecRequest.mk (some "nope") none none)) = .responded 200 body
        ∧ body.getField "success" = some (.jbool false)
        ∧ body.getField2 "error" "code" = some (.jstr "UNKNOWN_ACTION")
        ∧ body.getField2 "error" "message" = some (.jstr ("Unknown action: " ++ "nope"))
        ∧ body.getField "logs" = none
        ∧ body.getField "metrics" = none) :=
  ⟨rfl, rfl,
   execute_unknown_action sampleState (ExecRequest.mk (some "nope") none none) 4 6
     "nope" rfl rfl⟩

/-- C4: a handler that signals a failure yields `success: false` with the
failure's declared code (default `"EXECUTION_ERROR"`) and its description,
still carrying the logs gathered before the failure and a `duration_ms`
metric; the exception is caught, so the server still responds. -/
theorem execute_handler_failure (st : ServerState) (req : ExecRequest) (t0 t1 : Nat)
    (hd : Handler) (code : Option String) (msg : String) (calls : List LogCall)
    (hfind : lookupHandler st req.action = some hd)
    (hrun : hd (req.config.getD []) (mkContext (req.context.getD CtxData.empty))
              = .exn code msg calls) :
    ∃ body, do_POST st t0 t1 "/execute" (.parsed req) = .responded 200 body
      ∧ body.getField "success" = some (.jbool false)
      ∧ body.getField2 "error" "code" = some (.jstr (code.getD "EXECUTION_ERROR"))
      ∧ body.getField2 "error" "message" = some (.jstr msg)
      ∧ body.getField "logs" = some (.jarr ((loggerRun [] calls).map LogEntry.to_dict))
      ∧ body.getField2 "metrics" "duration_ms" = some (.jint ((t1 : Int) - (t0 : Int)))
      ∧ ∀ e, do_POST st t0 t1 "/execute" (.parsed req) ≠ .uncaught e := by
  refine ⟨failureBody code msg calls t0 t1, ?_, ?_, ?_, ?_, ?_, ?_, ?_⟩
  · simp [do_POST, hfind, hrun]
  · simp [failureBody, JVal.getField, dictGet]
  · simp [failureBody, JVal.getField2, JVal.getField, dictGet]
  · simp [failureBody, JVal.getField2, JVal.getField, dictGet]
  · simp [failureBody, JVal.getField, dictGet]
  · simp [failureBody, JVal.getField2, JVal.getField, dictGet]
  · intro e h
    simp [do_POST, hfind, hrun] at h

/-- C4 witness: the sample `fail` action raises with code `BAD_INPUT` and
message `missing field`. -/
theorem execute_handler_failure_witness :
    lookupHandler sampleState (ExecRequest.mk (some "fail") none none).action = some failHandler
    ∧ failHandler ((ExecRequest.mk (some "fail") none none).config.getD [])
        (mkContext ((ExecRequest.mk (some "fail") none none).context.getD CtxData.empty))
        = .exn (some "BAD_INPUT") "missing field" [.warn "about to fail" 5]
    ∧ (∃ body, do_POST sampleState 20 70 "/execute"
          (.parsed (ExecRequest.mk (some "fail") none none)) = .responded 200 body
        ∧ body.getField "success" = some (.jbool false)
        ∧ body.getField2 "error" "code"
            = some (.jstr (Option.getD (some "BAD_INPUT") "EXECUTION_ERROR"))
        ∧ body.getField2 "error" "message" = some (.jstr "missing field")
        ∧ body.getField "logs"
            = some (.jarr ((loggerRun [] [.warn "about to fail" 5]).map LogEntry.to_dict))
        ∧ body.getField2 "metrics" "duration_ms" = some (.jint ((70 : Int) - (20 : Int)))
        ∧ ∀ e, do_POST sampleState 20 70 "/execute"
            (.parsed (ExecRequest.mk (some "fail") none none)) ≠ .uncaught e) :=
  ⟨rfl, rfl,
   execute_handler_failure sampleState (ExecRequest.mk (some "fail") none none) 20 70
     failHandler (some "BAD_INPUT") "missing field" [.warn "about to fail" 5] rfl rfl⟩

/-- C5: whatever the handler's outcome, the response `logs` array is
exactly the serialized entries of the logger calls the handler made, in
emission order — position `i` holds the level and message of call `i`. -/
theorem execute_logs_emission_order (st : ServerState) (req : ExecRequest) (t0 t1 : Nat)
    (hd : Handler) (res : HandlerResult)
    (hfind : lookupHandler st req.action = some hd)
    (hrun : hd (req.config.getD []) (mkContext (req.context.getD CtxData.empty)) = res) :
    ∃ body, do_POST st t0 t1 "/execute" (.parsed req) = .responded 200 body
      ∧ body.getField "logs"
          = some (.jarr (res.logCalls.map (fun c => c.entry.to_dict)))
      ∧ ∀ i : Nat,
          (res.logCalls.map (fun c => c.entry.to_dict))[i]?
            = (res.logCalls[i]?).map (fun c => c.entry.to_dict) := by
  rcases res with ⟨r, cs⟩ | ⟨c, m, cs⟩
  · refine ⟨successBody r cs t0 t1, ?_, ?_, ?_⟩
    · simp [do_POST, hfind, hrun]
    · simp [successBody, JVal.getField, dictGet, HandlerResult.logCalls,
            loggerRun_eq, List.map_map, Function.comp_def]
    · intro i
      simp [HandlerResult.logCalls, List.getElem?_map]
  · refine ⟨failureBody c m cs t0 t1, ?_, ?_, ?_⟩
    · simp [do_POST, hfind, hrun]
    · simp [failureBody, JVal.getField, dictGet, HandlerResult.logCalls,
            loggerRun_eq, List.map_map, Function.comp_def]
    · intro i
      simp [HandlerResult.logCalls, List.getElem?_map]

/-- C5 witness: the sample `ping` action's single log line appears in the
response in order. -/
theorem execute_logs_emission_order_witness :
    lookupHandler sampleState (ExecRequest.mk (some "ping") none none).action = some pingHandler
    ∧ pingHandler ((ExecRequest.mk (some "ping") none none).config.getD [])
        (mkContext ((ExecRequest.mk (some "ping") none none).context.getD CtxData.empty))
        = .ret (some [("pong", .jbool true)]) [.info "starting" 3]
    ∧ (∃ body, do_POST sampleState 1 2 "/execute"
          (.parsed (ExecRequest.mk (some "ping") none none)) = .responded 200 body
        ∧ body.getField "logs"
            = some (.jarr ((HandlerResult.ret (some [("pong", .jbool true)])
                [.info "starting" 3]).logCalls.map (fun c => c.entry.to_dict)))
        ∧ ∀ i : Nat,
            ((HandlerResult.ret (some [("pong", .jbool true)])
                [.info "starting" 3]).logCalls.map (fun c => c.entry.to_dict))[i]?
              = ((HandlerResult.ret (some [("pong", .jbool true)])
                  [.info "starting" 3]).logCalls[i]?).map (fun c => c.entry.to_dict)) :=
  ⟨rfl, rfl,
   execute_logs_emission_order sampleState (ExecRequest.mk (some "ping") none none) 1 2
     pingHandler (.ret (some [("pong", .jbool true)]) [.info "starting" 3]) rfl rfl⟩

/-- C6: any request (over the implemented methods GET and POST) whose
method/path pair is none of the four routes gets the structured
`{"error": "Not found"}` body with HTTP status 404 — it is a response, not
a crash. -/
theorem unknown_route_returns_404 (st : ServerState) (now t0 t1 : Nat) (m : Method)
    (path : String) (b : ParsedBody)
    (h : isRoute m path = false) :
    dispatch st now t0 t1 m path b = .responded 404 notFoundBody := by
  cases m
  · simp only [isRoute, Bool.or_eq_false_iff, decide_eq_false_iff_not] at h
    simp [dispatch, do_GET, h.1, h.2]
  · simp only [isRoute, Bool.or_eq_false_iff, decide_eq_false_iff_not] at h
    simp [dispatch, do_POST, h.1, h.2]

/-- C6 witness: GET on an unknown path returns the 404 not-found body. -/
theorem unknown_route_returns_404_witness :
    isRoute Method.GET "/nope" = false
    ∧ dispatch sampleState 11 0 0 Method.GET "/nope" ParsedBody.malformed
        = .responded 404 notFoundBody :=
  ⟨rfl, unknown_route_returns_404 sampleState 11 0 0 Method.GET "/nope"
          ParsedBody.malformed rfl⟩

/-- C8: for a registry built from any registration sequence, GET /info
lists the registered action ids exactly once each (the `actions` entries
carry `id`, `name` and `description` fields), whatever the registration
order. -/
theorem info_lists_actions_exactly_once (regs : List (String × Handler))
    (mf : Manifest) (s now : Nat) (a : String)
    (h : a ∈ regs.map Prod.fst) :
    (do_GET ⟨mf, buildRegistry regs, s⟩ now "/info").body.getField "actions"
      = some (.jarr ((buildRegistry regs).map (fun p =>
          .jobj [("id", .jstr p.1), ("name", .jstr p.1),
                 ("description", .jstr ("Action: " ++ p.1))])))
    ∧ ((buildRegistry regs).map Prod.fst).count a = 1 := by
  constructor
  · simp [do_GET, JVal.getField, dictGet]
  · exact List.count_eq_one_of_mem (buildRegistry_keys_nodup regs)
      (mem_buildRegistry_keys.mpr h)

/-- C8 witness: the two sample registrations each appear once in /info. -/
theorem info_lists_actions_exactly_once_witness :
    "ping" ∈ ([("ping", pingHandler), ("fail", failHandler)] :
        List (String × Handler)).map Prod.fst
    ∧ ((do_GET ⟨sampleManifest,
          buildRegistry [("ping", pingHandler), ("fail", failHandler)], 10⟩
          99 "/info").body.getField "actions"
        = some (.jarr ((buildRegistry
            [("ping", pingHandler), ("fail", failHandler)]).map (fun p =>
              .jobj [("id", .jstr p.1), ("name", .jstr p.1),
                     ("description", .jstr ("Action: " ++ p.1))])))
        ∧ ((buildRegistry
            [("ping", pingHandler), ("fail", failHandler)]).map Prod.fst).count "ping" = 1) :=
  ⟨by simp,
   info_lists_actions_exactly_once [("ping", pingHandler), ("fail", failHandler)]
     sampleManifest 10 99 "ping" (by simp)⟩

/-- C9: GET /health always answers 200 with `status: "healthy"`, and with a
non-decreasing clock the reported `uptime_seconds` of two successive calls
is non-decreasing. -/
theorem health_healthy_uptime_monotone (st : ServerState) (t1 t2 : Nat)
    (h : t1 ≤ t2) :
    (do_GET st t1 "/health").status = 200
    ∧ (do_GET st t1 "/health").body.getField "status" = some (.jstr "healthy")
    ∧ (do_GET st t2 "/health").body.getField "status" = some (.jstr "healthy")
    ∧ ∃ u1 u2 : Int,
        (do_GET st t1 "/health").body.getField "uptime_seconds" = some (.jint u1)
        ∧ (do_GET st t2 "/health").body.getField "uptime_seconds" = some (.jint u2)
        ∧ u1 ≤ u2 := by
  refine ⟨by simp [do_GET], by simp [do_GET, JVal.getField, dictGet],
    by simp [do_GET, JVal.getField, dictGet],
    (t1 : Int) - (st.start_time : Int), (t2 : Int) - (st.start_time : Int),
    by simp [do_GET, JVal.getField, dictGet],
    by simp [do_GET, JVal.getField, dictGet], ?_⟩
  omega

/-- C9 witness: two health calls of the sample plugin at ticks 13 and 42. -/
theorem health_healthy_uptime_monotone_witness :
    (13 : Nat) ≤ 42
    ∧ ((do_GET sampleState 13 "/health").status = 200
      ∧ (do_GET sampleState 13 "/health").body.getField "status" = some (.jstr "healthy")
      ∧ (do_GET sampleState 42 "/health").body.getField "status" = some (.jstr "healthy")
      ∧ ∃ u1 u2 : Int,
          (do_GET sampleState 13 "/health").body.getField "uptime_seconds" = some (.jint u1)
          ∧ (do_GET sampleState 42 "/health").body.getField "uptime_seconds" = some (.jint u2)
          ∧ u1 ≤ u2) :=
  ⟨by decide, health_healthy_uptime_monotone sampleState 13 42 (by decide)⟩

end TestmeshPlugin
